import Mathlib

/-!
Verification development for the Cultura conversational fashion assistant
(`gemini_utils.py`, `location.py`, `geo.py`, `config.py`).

The Python code is shallowly embedded: strings are Lean `String`s, Python
`dict`s over string keys are ordered association lists (`PyDict`), Python
values that can appear in those dicts are `PyVal`, outbound calls (the
Gemini completion API and the Nominatim location lookup) are oracle
function parameters, and a Python exception is an `Except Unit` error.
All string primitives are re-implemented by structural recursion over
`List Char` so that every definition reduces in the kernel.
-/

namespace Cultura

/-! ## Python string primitives -/

/-- Python `str.strip()` whitespace set (ASCII part): space, tab, LF, CR,
vertical tab, form feed. -/
def pyIsSpace (c : Char) : Bool :=
  c = ' ' || c = '\t' || c = '\n' || c = '\r' || c = Char.ofNat 11 || c = Char.ofNat 12

/-- Python `s.strip()`: remove leading and trailing whitespace. -/
def pyStrip (s : String) : String :=
  ⟨((s.toList.dropWhile pyIsSpace).reverse.dropWhile pyIsSpace).reverse⟩

/-- Python `s.lower()` (ASCII case folding). -/
def pyLower (s : String) : String :=
  ⟨s.toList.map Char.toLower⟩

/-- Auxiliary for `pySplit`: leftmost, non-overlapping split on a non-empty
separator, Python `str.split(sep)` semantics; `fuel` bounds recursion. -/
def pySplitAux (sep : List Char) : Nat → List Char → List Char → List (List Char)
  | 0, _, acc => [acc.reverse]
  | fuel + 1, cs, acc =>
    if sep.isPrefixOf cs ∧ sep ≠ [] then
      acc.reverse :: pySplitAux sep fuel (cs.drop sep.length) []
    else
      match cs with
      | [] => [acc.reverse]
      | c :: t => pySplitAux sep fuel t (c :: acc)

/-- Python `s.split(sep)` for a non-empty separator. -/
def pySplit (sep s : String) : List String :=
  (pySplitAux sep.toList (s.toList.length + 1) s.toList []).map fun l => ⟨l⟩

/-- Python `sub in s` for a non-empty `sub`: the split on `sub` has more
than one part. -/
def pyContains (sub s : String) : Bool :=
  (pySplit sub s).length != 1

/-- Python `s.split(sep, 1)`: split at the first occurrence only. -/
def pySplit1 (sep s : String) : String × String :=
  match pySplit sep s with
  | a :: b :: rest => (a, String.intercalate sep (b :: rest))
  | _ => (s, "")

/-- Python `s.startswith(p)`. -/
def pyStartsWith (p s : String) : Bool :=
  p.toList.isPrefixOf s.toList

/-- Python `s.replace(old, new)` for a non-empty `old`: equivalent to
`new.join(s.split(old))`. -/
def pyReplace (old new s : String) : String :=
  String.intercalate new (pySplit old s)

/-- Python `s.strip('"')`: remove any number of leading and trailing
double-quote characters. -/
def pyStripQuotes (s : String) : String :=
  ⟨((s.toList.dropWhile (· = '"')).reverse.dropWhile (· = '"')).reverse⟩

/-- Python `s.split()` with no argument: split on whitespace runs, dropping
empty fields. -/
def pySplitWs (s : String) : List String :=
  (List.splitOnP pyIsSpace s.toList).filter (· ≠ []) |>.map fun l => ⟨l⟩

/-- Python `re.fullmatch(r"[a-zA-Z0-9]+", s)` as a Boolean: `s` is non-empty
and every character is an ASCII letter or digit. -/
def isAlnumToken (s : String) : Bool :=
  s ≠ "" && s.toList.all fun c =>
    ('a' ≤ c && c ≤ 'z') || ('A' ≤ c && c ≤ 'Z') || ('0' ≤ c && c ≤ '9')

-- Sanity checks for the primitives (Python semantics).
example : pyStrip "  hi there\n" = "hi there" := by decide
example : pySplit "Location:" "ReLocation: Paris" = ["Re", " Paris"] := by decide
example : pySplit ":" "a:b:c" = ["a", "b", "c"] := by decide
example : pySplit1 ":" "a:b:c" = ("a", "b:c") := by decide
example : pyContains "Location:" "Relocation: Paris" = false := by decide
example : pyContains "Location:" "ReLocation: Paris" = true := by decide
example : pyContains "x" "abc" = false := by decide
example : pyReplace " " "_" "climate zone" = "climate_zone" := by decide
example : pySplitWs "  asdf123  " = ["asdf123"] := by decide
example : pySplitWs "two words" = ["two", "words"] := by decide
example : isAlnumToken "asdf123" = true := by decide
example : isAlnumToken "asdf!" = false := by decide
example : pyStripQuotes "\"hi\"" = "hi" := by decide
example : pyLower "HeLLo" = "hello" := by decide

/-! ## Python values and dicts -/

/-- A Python value as it can occur in the dicts this code manipulates:
`None`, booleans, numbers (kept as their JSON lexeme — no claim inspects
numeric values), strings, lists, and string-keyed dicts. -/
inductive PyVal where
  | none : PyVal
  | bool (b : Bool) : PyVal
  | numLit (s : String) : PyVal
  | str (s : String) : PyVal
  | list (xs : List PyVal) : PyVal
  | dict (d : List (String × PyVal)) : PyVal

/-- A Python dict with string keys: an insertion-ordered association list
with unique keys (every dict below is built by `dset`). -/
abbrev PyDict := List (String × PyVal)

/-- Python `d[k]` lookup (first binding; keys are unique). -/
def dlookup : PyDict → String → Option PyVal
  | [], _ => Option.none
  | (k', v') :: t, k => if k' = k then some v' else dlookup t k

/-- Python `d[k] = v`: replace in place if the key exists, else append. -/
def dset : PyDict → String → PyVal → PyDict
  | [], k, v => [(k, v)]
  | (k', v') :: t, k, v => if k' = k then (k, v) :: t else (k', v') :: dset t k v

/-- Python `k in d`. -/
def dmem (d : PyDict) (k : String) : Bool :=
  (dlookup d k).isSome

/-- Python `d.get(k, default)`. -/
def dgetD (d : PyDict) (k : String) (default : PyVal) : PyVal :=
  (dlookup d k).getD default

/-- Python `d.update(e)`: set every binding of `e` into `d`, in order. -/
def dupdate (d e : PyDict) : PyDict :=
  e.foldl (fun acc kv => dset acc kv.1 kv.2) d

/-- A zero number lexeme: all mantissa digits are `0` (correct for every
valid JSON number lexeme). -/
def numIsZero (s : String) : Bool :=
  (s.toList.takeWhile fun c => c ≠ 'e' ∧ c ≠ 'E').all fun c =>
    c = '0' || c = '-' || c = '+' || c = '.'

/-- Python truthiness of a value. -/
def pyTruthy : PyVal → Bool
  | .none => false
  | .bool b => b
  | .numLit s => !numIsZero s
  | .str s => s ≠ ""
  | .list xs => !xs.isEmpty
  | .dict d => !d.isEmpty

/-- Python `a or b`: the first operand if truthy, else the second. -/
def pyOrV (a b : PyVal) : PyVal := if pyTruthy a then a else b

mutual

/-- Python `repr` of a value (single-quoted strings, as Python prints). -/
def pyReprV : PyVal → String
  | .none => "None"
  | .bool true => "True"
  | .bool false => "False"
  | .numLit s => s
  | .str s => "'" ++ s ++ "'"
  | .list xs => "[" ++ pyReprL xs ++ "]"
  | .dict d => "\x7b" ++ pyReprD d ++ "\x7d"

/-- Comma-joined reprs of a list's elements. -/
def pyReprL : List PyVal → String
  | [] => ""
  | [x] => pyReprV x
  | x :: y :: t => pyReprV x ++ ", " ++ pyReprL (y :: t)

/-- Comma-joined reprs of a dict's bindings. -/
def pyReprD : List (String × PyVal) → String
  | [] => ""
  | [(k, v)] => "'" ++ k ++ "': " ++ pyReprV v
  | (k, v) :: kv :: t => "'" ++ k ++ "': " ++ pyReprV v ++ ", " ++ pyReprD (kv :: t)

end

/-- Python `str(v)` as used by f-string interpolation. -/
def pyStr (v : PyVal) : String :=
  match v with
  | .none => "None"
  | .bool true => "True"
  | .bool false => "False"
  | .numLit s => s
  | .str s => s
  | v => pyReprV v

/-! ## A model of Python `json.loads`

Recursive-descent parser over `List Char`, fuel-bounded (fuel is the input
length plus one; every recursive call first consumes at least one
character).  It follows Python's strict JSON decoder: double-quoted
strings with the standard escapes, no literal control characters inside
strings, objects keep the last of duplicate keys expressed via `dset`,
`NaN`, `Infinity` and `-Infinity` accepted as number lexemes, and the
whole input must be consumed up to trailing whitespace. -/

/-- JSON inter-token whitespace. -/
def jIsWs (c : Char) : Bool := c = ' ' || c = '\t' || c = '\n' || c = '\r'

/-- Hex digit value. -/
def hexVal (c : Char) : Option Nat :=
  if '0' ≤ c ∧ c ≤ '9' then some (c.toNat - '0'.toNat)
  else if 'a' ≤ c ∧ c ≤ 'f' then some (c.toNat - 'a'.toNat + 10)
  else if 'A' ≤ c ∧ c ≤ 'F' then some (c.toNat - 'A'.toNat + 10)
  else Option.none

/-- Parse the body of a JSON string literal (after the opening quote);
returns the decoded characters and the rest after the closing quote. -/
def jstringAux : Nat → List Char → List Char → Option (List Char × List Char)
  | 0, _, _ => Option.none
  | _, '"' :: rest, acc => some (acc.reverse, rest)
  | fuel + 1, '\\' :: e :: rest, acc =>
    match e with
    | '"' => jstringAux fuel rest ('"' :: acc)
    | '\\' => jstringAux fuel rest ('\\' :: acc)
    | '/' => jstringAux fuel rest ('/' :: acc)
    | 'b' => jstringAux fuel rest (Char.ofNat 8 :: acc)
    | 'f' => jstringAux fuel rest (Char.ofNat 12 :: acc)
    | 'n' => jstringAux fuel rest ('\n' :: acc)
    | 'r' => jstringAux fuel rest ('\r' :: acc)
    | 't' => jstringAux fuel rest ('\t' :: acc)
    | 'u' =>
      match rest with
      | h1 :: h2 :: h3 :: h4 :: rest' =>
        match hexVal h1, hexVal h2, hexVal h3, hexVal h4 with
        | some a, some b, some c, some d =>
          jstringAux fuel rest' (Char.ofNat (((a * 16 + b) * 16 + c) * 16 + d) :: acc)
        | _, _, _, _ => Option.none
      | _ => Option.none
    | _ => Option.none
  | fuel + 1, c :: rest, acc =>
    if c.toNat < 32 then Option.none else jstringAux fuel rest (c :: acc)
  | _, [], _ => Option.none

/-- Lex a JSON number starting at `cs` (first char a digit or `-`);
returns the lexeme and the rest, or fails on a malformed numeral. -/
def jnumber (cs : List Char) : Option (List Char × List Char) :=
  let isDigit := fun c => '0' ≤ c && c ≤ '9'
  let (sign, cs1) := match cs with
    | '-' :: t => (['-'], t)
    | _ => (([] : List Char), cs)
  let intPart := cs1.takeWhile isDigit
  let cs2 := cs1.drop intPart.length
  if intPart = [] then Option.none
  else if intPart.length > 1 ∧ intPart.headD '0' = '0' then Option.none
  else
    let (fracPart, cs3) := match cs2 with
      | '.' :: t =>
        let ds := t.takeWhile isDigit
        if ds = [] then ([('.' : Char)], t) else ('.' :: ds, t.drop ds.length)
      | _ => (([] : List Char), cs2)
    if fracPart = ['.'] then Option.none
    else
      let (expPart, cs4) := match cs3 with
        | e :: t =>
          if e = 'e' ∨ e = 'E' then
            let (es, t') := match t with
              | s :: t'' => if s = '+' ∨ s = '-' then ([e, s], t'') else ([e], t)
              | [] => ([e], t)
            let ds := t'.takeWhile isDigit
            if ds = [] then ([e, e], t') else (es ++ ds, t'.drop ds.length)
          else (([] : List Char), cs3)
        | [] => (([] : List Char), cs3)
      if expPart = ['e', 'e'] ∨ expPart = ['E', 'E'] then Option.none
      else some (sign ++ intPart ++ fracPart ++ expPart, cs4)

mutual

/-- Parse one JSON value; returns it and the unconsumed rest. -/
def jparse : Nat → List Char → Option (PyVal × List Char)
  | 0, _ => Option.none
  | fuel + 1, cs =>
    match cs.dropWhile jIsWs with
    | '{' :: rest => jparseObj fuel (rest.dropWhile jIsWs) [] true
    | '[' :: rest => jparseArr fuel (rest.dropWhile jIsWs) [] true
    | '"' :: rest =>
      match jstringAux (rest.length + 1) rest [] with
      | some (chars, rest') => some (.str ⟨chars⟩, rest')
      | Option.none => Option.none
    | 't' :: 'r' :: 'u' :: 'e' :: rest => some (.bool true, rest)
    | 'f' :: 'a' :: 'l' :: 's' :: 'e' :: rest => some (.bool false, rest)
    | 'n' :: 'u' :: 'l' :: 'l' :: rest => some (.none, rest)
    | 'N' :: 'a' :: 'N' :: rest => some (.numLit "NaN", rest)
    | 'I' :: 'n' :: 'f' :: 'i' :: 'n' :: 'i' :: 't' :: 'y' :: rest =>
      some (.numLit "Infinity", rest)
    | '-' :: 'I' :: 'n' :: 'f' :: 'i' :: 'n' :: 'i' :: 't' :: 'y' :: rest =>
      some (.numLit "-Infinity", rest)
    | cs' =>
      match jnumber cs' with
      | some (lexeme, rest) => some (.numLit ⟨lexeme⟩, rest)
      | Option.none => Option.none

/-- Parse the members of a JSON object after `{` (whitespace skipped);
`first` is true before the first member. -/
def jparseObj : Nat → List Char → PyDict → Bool → Option (PyVal × List Char)
  | 0, _, _, _ => Option.none
  | _, '}' :: rest, acc, true => some (.dict acc, rest)
  | fuel + 1, cs, acc, _ =>
    match cs with
    | '"' :: rest =>
      match jstringAux (rest.length + 1) rest [] with
      | some (kchars, rest') =>
        match (rest'.dropWhile jIsWs) with
        | ':' :: rest'' =>
          match jparse fuel rest'' with
          | some (v, rest3) =>
            let acc' := dset acc ⟨kchars⟩ v
            match rest3.dropWhile jIsWs with
            | ',' :: rest4 => jparseObj fuel (rest4.dropWhile jIsWs) acc' false
            | '}' :: rest4 => some (.dict acc', rest4)
            | _ => Option.none
          | Option.none => Option.none
        | _ => Option.none
      | Option.none => Option.none
    | _ => Option.none

/-- Parse the elements of a JSON array after `[` (whitespace skipped);
`first` is true before the first element. -/
def jparseArr : Nat → List Char → List PyVal → Bool → Option (PyVal × List Char)
  | 0, _, _, _ => Option.none
  | _, ']' :: rest, acc, true => some (.list acc.reverse, rest)
  | fuel + 1, cs, acc, _ =>
    match jparse fuel cs with
    | some (v, rest) =>
      match rest.dropWhile jIsWs with
      | ',' :: rest' => jparseArr fuel rest' (v :: acc) false
      | ']' :: rest' => some (.list (v :: acc).reverse, rest')
      | _ => Option.none
    | Option.none => Option.none

end

/-- Python `json.loads`: parse one value and require that only whitespace
follows it. -/
def json_loads (cs : List Char) : Option PyVal :=
  match jparse (cs.length + 1) cs with
  | some (v, rest) => if rest.dropWhile jIsWs = [] then some v else Option.none
  | Option.none => Option.none

-- Sanity checks for the JSON model.
example : json_loads "\x7b\"region\": \"south_asia\"\x7d".toList
    = some (.dict [("region", .str "south_asia")]) := rfl
example : json_loads "\x7b\"a\": [1, true, null], \"a\": \"x\"\x7d".toList
    = some (.dict [("a", .str "x")]) := rfl
example : json_loads "not json".toList = Option.none := rfl
example : json_loads "\x7b\"a\": 1\x7d trailing".toList = Option.none := rfl

/-! ## `config.py` -/

/-- `config.GEMINI_MODELS`: the fixed roster of free Gemini models. -/
def GEMINI_MODELS : List String :=
  ["models/gemini-1.5-flash", "models/gemini-1.5-flash-8b",
   "models/gemini-2.0-flash", "models/gemini-2.5-flash"]

/-! ## `gemini_utils.py`: model selection and `_llm_chat`

The Gemini API call `genai.GenerativeModel(m).generate_content(prompt)` is
an external collaborator, modelled as an oracle
`attempt : String → String → Except Unit String` (model name and prompt to
generated text, or a raised exception).  `random.choice` is modelled by an
index argument `r` reduced modulo the roster length. -/

/-- `gemini_utils.get_model_for_task`. -/
def get_model_for_task (task_complexity : String) : String :=
  if task_complexity = "simple" then "models/gemini-1.5-flash"
  else if task_complexity = "medium" then "models/gemini-2.0-flash"
  else "models/gemini-2.5-flash"

/-- Model selection at the top of `_llm_chat`: `random.choice` over the
available models in random mode, else the task-complexity mapping. -/
def select_model (r : Nat) (task_complexity : String) (use_random_model : Bool) : String :=
  if use_random_model then (GEMINI_MODELS.get? (r % GEMINI_MODELS.length)).getD ""
  else get_model_for_task task_complexity

/-- The fallback model chosen in `_llm_chat`'s except branch:
`'models/gemini-1.5-flash'`, replaced by `'models/gemini-2.0-flash'` when
the failed model already was the 1.5 flash. -/
def fallback_model_for (model_name : String) : String :=
  if model_name = "models/gemini-1.5-flash" then "models/gemini-2.0-flash"
  else "models/gemini-1.5-flash"

/-- The fixed degraded reply returned when the fallback also fails. -/
def LLM_APOLOGY : String :=
  "I'm having trouble generating a response right now. Please try again."

/-- Result of one `_llm_chat` call: the returned string plus, for the
temporal claims, the models attempted in order. -/
structure LlmOutcome where
  result : String
  attempts : List String

/-- `gemini_utils._llm_chat`: try the selected model; on an exception retry
once with the fixed alternate model; if that also raises, return the fixed
apologetic string.  Total: no exception escapes past model selection. -/
def llm_chat (attempt : String → String → Except Unit String) (r : Nat)
    (prompt task_complexity : String) (use_random_model : Bool) : LlmOutcome :=
  let model_name := select_model r task_complexity use_random_model
  match attempt model_name prompt with
  | .ok text => ⟨pyStrip text, [model_name]⟩
  | .error _ =>
    let fallback_model := fallback_model_for model_name
    match attempt fallback_model prompt with
    | .ok text => ⟨pyStrip text, [model_name, fallback_model]⟩
    | .error _ => ⟨LLM_APOLOGY, [model_name, fallback_model]⟩

/-! ## `gemini_utils.py`: user records and location enrichment -/

/-- The dict built by `gemini_utils.get_enhanced_location_info`: either the
polygon-backed record (`polygon_available=True`) or the minimal
not-found record (`polygon_available=False`). -/
inductive EnhancedLocation where
  | found (original_query : String) (display_name source bbox : PyVal)
  | notFound (original_query : String)

/-- One user's entry in `user_preferences`: each labeled fact is set only
once a non-"unknown" value has been extracted. -/
structure UserRecord where
  location : Option String := Option.none
  enhanced_location : Option EnhancedLocation := Option.none
  body_type : Option String := Option.none
  style_preferences : Option String := Option.none
  budget : Option String := Option.none

/-- The process-wide `user_preferences` mapping. -/
abbrev Store := String → Option UserRecord

/-- `gemini_utils.get_enhanced_location_info`: `None` for an empty or
"unknown" query, the polygon record when the lookup adapter returns a
truthy dict, else the minimal not-found record.  The Nominatim adapter
(`geo.LocationAPI.get_user_location_polygon`) catches all its exceptions
and returns `None`, so it is modelled as `api : String → Option PyDict`. -/
def gu_get_enhanced_location_info (api : String → Option PyDict)
    (location_string : String) : Option EnhancedLocation :=
  if location_string = "" ∨ pyLower location_string = "unknown" then Option.none
  else
    match api location_string with
    | some pd =>
      if pd.isEmpty then some (.notFound location_string)
      else some (.found location_string (dgetD pd "display_name" (.str ""))
        (dgetD pd "source" (.str "")) (dgetD pd "bbox" (.list [])))
    | Option.none => some (.notFound location_string)

/-! ## `gemini_utils.extract_user_info` -/

/-- The f-string prompt built by `extract_user_info`. -/
def extract_prompt (message : String) : String :=
  "\n    Extract user information from this message. Look for:\n    - Location\n    - Body Type\n    - Style Preferences\n    - Budget\n\n    Message: \"" ++ message ++ "\"\n    Respond in the format:\n    Location: ...\n    Body Type: ...\n    Style Preferences: ...\n    Budget: ...\n    "

/-- Which of the four labeled fields a response line addresses. -/
inductive FieldTag where
  | location | body_type | style_preferences | budget
deriving DecidableEq

/-- The `'<label>' in line` test together with
`line.split('<label>')[1].strip()`: `some` of the trimmed text between the
first and second occurrence of the label exactly when the label occurs. -/
def labelSplit (label line : String) : Option String :=
  match pySplit label line with
  | _ :: v :: _ => some (pyStrip v)
  | _ => Option.none

/-- The if/elif chain of `extract_user_info` on one line: the first label
(in the order `Location:`, `Body Type:`, `Style Preferences:`, `Budget:`)
contained in the line, with its extracted value. -/
def lineField (line : String) : Option (FieldTag × String) :=
  match labelSplit "Location:" line with
  | some v => some (.location, v)
  | Option.none =>
  match labelSplit "Body Type:" line with
  | some v => some (.body_type, v)
  | Option.none =>
  match labelSplit "Style Preferences:" line with
  | some v => some (.style_preferences, v)
  | Option.none =>
  match labelSplit "Budget:" line with
  | some v => some (.budget, v)
  | Option.none => Option.none

/-- The body of `extract_user_info`'s per-line loop: update the matched
field when its value is not the literal "unknown"; a new location also
triggers the location enrichment. -/
def process_extract_line (api : String → Option PyDict) (r : UserRecord)
    (line : String) : UserRecord :=
  match lineField line with
  | some (.location, location) =>
    if location ≠ "unknown" then
      let r1 := { r with location := some location }
      match gu_get_enhanced_location_info api location with
      | some el => { r1 with enhanced_location := some el }
      | Option.none => r1
    else r
  | some (.body_type, v) =>
    if v ≠ "unknown" then { r with body_type := some v } else r
  | some (.style_preferences, v) =>
    if v ≠ "unknown" then { r with style_preferences := some v } else r
  | some (.budget, v) =>
    if v ≠ "unknown" then { r with budget := some v } else r
  | Option.none => r

/-- The oracles of one request: the Gemini call, the stream of random
choices (indexed by how many random draws happened so far), and the
location lookup adapter. -/
structure Oracles where
  attempt : String → String → Except Unit String
  rand : Nat → Nat
  api : String → Option PyDict

/-- `gemini_utils.extract_user_info`: request an extraction completion
(the first `_llm_chat` call of the request, random mode, medium tier),
create the user's record if absent, then fold the per-line loop over the
response's lines; returns the record and the updated store. -/
def extract_user_info (o : Oracles) (message user_id : String) (store : Store) :
    UserRecord × Store :=
  let extracted := (llm_chat o.attempt (o.rand 0) (extract_prompt message) "medium" true).result
  let r0 := (store user_id).getD {}
  let lines := pySplit "\n" (pyStrip extracted)
  let r := lines.foldl (process_extract_line o.api) r0
  (r, fun u => if u = user_id then some r else store u)

/-! ## `gemini_utils.py`: intent classification, generation, orchestrator -/

/-- The f-string prompt built by `classify_intent`. -/
def classify_intent_prompt (message : String) : String :=
  "\n    You are an AI assistant specialized in fashion and lifestyle. Analyze the user's message and classify their intent into one of these categories:\n\n    - skincare\n    - event_dressing\n    - travel\n    - music\n    - general_recommendation\n\n    Message: \"" ++ message ++ "\"\n    Respond with only the category name.\n    "

/-- `gemini_utils.classify_intent`: one `_llm_chat` call at the simple
tier with the fixed model mapping (`use_random_model=False`). -/
def classify_intent (attempt : String → String → Except Unit String)
    (message : String) : String :=
  (llm_chat attempt 0 (classify_intent_prompt message) "simple" false).result

/-- The f-string prompt built by `generate_fashion_response`, including the
location context block. -/
def generate_fashion_response_prompt (message intent_category user_id : String)
    (store : Store) : String :=
  let user_info := (store user_id).getD {}
  let location := user_info.location.getD "unknown"
  let body_type := user_info.body_type.getD "unknown"
  let style_preferences := user_info.style_preferences.getD "unknown"
  let budget := user_info.budget.getD "unknown"
  let location_context :=
    match user_info.enhanced_location with
    | some (.found _ display_name _ _) =>
      "\n        Enhanced Location Information:\n        - User mentioned: " ++ location ++ "\n        - Full location: " ++ pyStr display_name ++ "\n        "
    | _ => if location ≠ "unknown" then "User Location: " ++ location else ""
  "\n    You are Cultura, an expert fashion and lifestyle assistant. \n    You are a helpful assistant who can help the user with their fashion and lifestyle needs.\n\n    Instructions:\n    1. Provide recommendations as a numbered list (1., 2., 3., etc.).\n    2. Do not use bold text, markdown, or special formatting.\n    3. Keep the tone casual, friendly, and concise.\n    4. Include specific product names, brands, and styling tips where possible.\n    5. Ensure suggestions are relevant to the user's location, body type, style preferences, and budget.\n    6. Keep the entire response under 300 words.\n    7. If more details are needed (location, body type, budget), ask politely at the end.\n    8. Do not use bold text, markdown, or special formatting.\n\n    Example:\n    1. Linen maxi dress from Mango — breathable and perfect for hot weather.\n    2. Tailored blazer from Zara — works for both office and evening events.\n    3. Leather sandals from Clarks — stylish yet comfortable for walking.\n\n    " ++ location_context ++ "\n\n    User Information:\n    - Body Type: " ++ body_type ++ "\n    - Style Preferences: " ++ style_preferences ++ "\n    - Budget: " ++ budget ++ "\n    - Intent Category: " ++ intent_category ++ "\n\n    User Message: \"" ++ message ++ "\"\n    "

/-- `gemini_utils.generate_fashion_response`: one `_llm_chat` call at the
complex tier in random mode (the request's second random draw). -/
def generate_fashion_response (o : Oracles) (message intent_category user_id : String)
    (store : Store) : String :=
  (llm_chat o.attempt (o.rand 1)
    (generate_fashion_response_prompt message intent_category user_id store)
    "complex" true).result

/-- The fixed greeting tokens of the shortcut check. -/
def GREETINGS : List String := ["hey", "hi", "hello", "hola", "yo", "greetings"]

/-- The fixed greeting reply. -/
def GREETING_REPLY : String :=
  "Hey! I am Cultura, your personal stylist. How can I help you today?"

/-- The fixed "didn't understand" reply. -/
def DONT_UNDERSTAND_REPLY : String :=
  "Hey, I didn't understand you. Could you please elaborate?"

/-- The five intent categories accepted by the orchestrator. -/
def INTENT_CATEGORIES : List String :=
  ["skincare", "event_dressing", "travel", "music", "general_recommendation"]

/-- `gemini_utils.process_user_message`, instrumented: the third component
is the list of prompts passed to `_llm_chat`, in call order (fact
extraction always first, then — unless a shortcut returns — intent
classification, then response generation).  The single-token branch
returns only when the trimmed message is one whitespace-separated token,
not a greeting, and fully alphanumeric; a non-alphanumeric single token
falls through to intent classification, as in the source. -/
def process_user_message (o : Oracles) (message user_id : String) (store : Store) :
    String × Store × List String :=
  let store1 := (extract_user_info o message user_id store).2
  let trace0 := [extract_prompt message]
  if pyLower (pyStrip message) ∈ GREETINGS then
    (GREETING_REPLY, store1, trace0)
  else if (pySplitWs (pyStrip message)).length = 1
      ∧ pyLower (pyStrip message) ∉ GREETINGS
      ∧ isAlnumToken (pyStrip message) then
    (DONT_UNDERSTAND_REPLY, store1, trace0)
  else
    let intent := classify_intent o.attempt message
    let trace1 := trace0 ++ [classify_intent_prompt message]
    if intent ∉ INTENT_CATEGORIES then
      (DONT_UNDERSTAND_REPLY, store1, trace1)
    else
      (generate_fashion_response o message intent user_id store1, store1,
        trace1 ++ [generate_fashion_response_prompt message intent user_id store1])

/-! ## `location.py`: LLM-powered location classification

`LocationBasedFashionAssistant` holds two caches; its lookup adapter and
its injected `llm_chat_function` are oracles.  A state-changing method is
embedded as a function from the cache state (plus oracles) to result, new
state, and the number of Location Lookup Adapter calls it issued. -/

/-- Association-list lookup for the two caches (string key to dict). -/
def alookup {α : Type} : List (String × α) → String → Option α
  | [], _ => Option.none
  | (k', v') :: t, k => if k' = k then some v' else alookup t k

/-- Association-list insert for the two caches (replace or append). -/
def aset {α : Type} : List (String × α) → String → α → List (String × α)
  | [], k, v => [(k, v)]
  | (k', v') :: t, k, v => if k' = k then (k, v) :: t else (k', v') :: aset t k v

/-- The two process-lifetime caches of `LocationBasedFashionAssistant`. -/
structure FashionState where
  location_cache : List (String × PyDict)
  classification_cache : List (String × PyDict)

/-- `re.findall(r'"([^"]+)"', value)`: every non-empty double-quoted chunk,
scanning left to right (an empty pair of quotes fails the match and the
scan restarts at its closing quote). -/
def findQuotedAux : Nat → List Char → List String
  | 0, _ => []
  | fuel + 1, cs =>
    match cs.dropWhile (· ≠ '"') with
    | [] => []
    | _ :: afterOpen =>
      let chunk := afterOpen.takeWhile (· ≠ '"')
      match afterOpen.drop chunk.length with
      | [] => []
      | _ :: afterClose =>
        if chunk = [] then findQuotedAux fuel afterOpen
        else (⟨chunk⟩ : String) :: findQuotedAux fuel afterClose

/-- `re.findall(r'"([^"]+)"', s)`. -/
def findQuoted (s : String) : List String :=
  findQuotedAux (s.toList.length + 1) s.toList

/-- `re.search(r'\x7b.*\x7d', response, re.DOTALL)`: greedy, so the match
(when one exists) runs from the first opening brace to the last closing
brace after it. -/
def json_brace_match (s : String) : Option (List Char) :=
  let t := s.toList.dropWhile (· ≠ '\x7b')
  let u := (t.reverse.dropWhile (· ≠ '\x7d')).reverse
  if u.isEmpty then Option.none else some u

/-- The `required_fields` list of `_parse_llm_classification_response`
(note: `seasonal_info` and `price_range_info` are not in it). -/
def REQUIRED_FIELDS : List String := ["region", "climate_zone", "fashion_market"]

/-- The `list_fields` list of `_parse_llm_classification_response` and the
list-valued keys recognized by the text fallback. -/
def CLS_LIST_KEYS : List String :=
  ["local_brands", "available_stores", "online_platforms",
   "cultural_considerations", "popular_styles"]

/-- The scalar keys recognized by the text fallback parser. -/
def CLS_SCALAR_KEYS : List String :=
  ["region", "climate_zone", "fashion_market", "seasonal_info", "price_range_info"]

/-- The default `climate_recommendations` sub-dict. -/
def DEFAULT_CLIMATE_RECS : PyVal :=
  .dict [("fabrics", .list []), ("colors", .list []),
         ("styles", .list []), ("essentials", .list [])]

/-- The default classification dict the text fallback starts from. -/
def TEXT_DEFAULT_CLASSIFICATION : PyDict :=
  [("region", .str "unknown"), ("climate_zone", .str "temperate"),
   ("fashion_market", .str "international"), ("local_brands", .list []),
   ("available_stores", .list []), ("online_platforms", .list []),
   ("cultural_considerations", .list []),
   ("seasonal_info", .str "Varies by season"),
   ("price_range_info", .str "Varies"), ("popular_styles", .list []),
   ("climate_recommendations", DEFAULT_CLIMATE_RECS)]

/-- One line of `_parse_text_classification_response`'s loop: recognize
`key: value` lines (not starting with `-`), normalize the key, store
scalar values stripped of quotes, and parse bracketed list values. -/
def parse_text_line (cls : PyDict) (rawLine : String) : PyDict :=
  let line := pyStrip rawLine
  if pyContains ":" line ∧ ¬ pyStartsWith "-" line then
    let key := pyReplace "-" "_" (pyReplace " " "_" (pyLower (pyStrip (pySplit1 ":" line).1)))
    let value := pyStrip (pySplit1 ":" line).2
    if key ∈ CLS_SCALAR_KEYS then dset cls key (.str (pyStripQuotes value))
    else if key ∈ CLS_LIST_KEYS then
      if pyContains "[" value ∧ pyContains "]" value then
        let items0 := findQuoted value
        let items := if items0.isEmpty then
            (pySplit "," (pyReplace "]" "" (pyReplace "[" "" value))).map pyStrip
          else items0
        dset cls key (.list ((items.filter fun it => pyStrip it ≠ "").map
          fun it => .str (pyStrip (pyStripQuotes it))))
      else cls
    else cls
  else cls

/-- `LocationBasedFashionAssistant._parse_text_classification_response`. -/
def parse_text_classification_response (response : String) : PyDict :=
  (pySplit "\n" response).foldl parse_text_line TEXT_DEFAULT_CLASSIFICATION

/-- One step of the `required_fields` loop of
`_parse_llm_classification_response`: `if field not in classification:
classification[field] = 'unknown'`. -/
def ensure_scalar (d : PyDict) (f : String) : PyDict :=
  if dmem d f then d else dset d f (.str "unknown")

/-- One step of the `list_fields` loop: `if field not in classification or
not isinstance(classification[field], list): classification[field] = []`. -/
def ensure_list (d : PyDict) (f : String) : PyDict :=
  match dlookup d f with
  | some (.list _) => d
  | _ => dset d f (.list [])

/-- The post-decode validation of `_parse_llm_classification_response`:
backfill the three `required_fields` with "unknown", force the five list
fields to lists, and add a default `climate_recommendations` when the key
is absent. -/
def validate_classification (d : PyDict) : PyDict :=
  let d1 := REQUIRED_FIELDS.foldl ensure_scalar d
  let d2 := CLS_LIST_KEYS.foldl ensure_list d1
  if dmem d2 "climate_recommendations" then d2
  else dset d2 "climate_recommendations" DEFAULT_CLIMATE_RECS

/-- `LocationBasedFashionAssistant._parse_llm_classification_response`:
extract the brace-delimited substring, decode it as JSON and validate; on
no match or a decode error, fall back to the text parser.  (`json.loads`
of a string that starts with an opening brace can only produce a dict or
raise, so the non-dict arm is unreachable and also routed to the text
fallback.) -/
def parse_llm_classification_response (response : String) : PyDict :=
  match json_brace_match response with
  | some jcs =>
    match json_loads jcs with
    | some (.dict d) => validate_classification d
    | _ => parse_text_classification_response response
  | Option.none => parse_text_classification_response response

/-- The generic profile built by `_get_basic_fallback_classification`
before the region table is consulted. -/
def GENERIC_FALLBACK_BASE : PyDict :=
  [("region", .str "unknown"), ("climate_zone", .str "temperate"),
   ("fashion_market", .str "international"),
   ("local_brands", .list [.str "Zara", .str "H&M", .str "Uniqlo"]),
   ("available_stores", .list [.str "Local malls", .str "Online retailers"]),
   ("online_platforms", .list [.str "Amazon", .str "Local e-commerce"]),
   ("cultural_considerations",
     .list [.str "Weather appropriate", .str "Occasion suitable"]),
   ("seasonal_info", .str "Four seasons with varying temperatures"),
   ("price_range_info", .str "Mid-range pricing"),
   ("popular_styles", .list [.str "Casual", .str "Smart casual", .str "Formal"]),
   ("climate_recommendations", .dict
     [("fabrics", .list [.str "Cotton", .str "Polyester blends"]),
      ("colors", .list [.str "Neutral tones", .str "Seasonal colors"]),
      ("styles", .list [.str "Layerable pieces", .str "Versatile basics"]),
      ("essentials", .list [.str "Jacket", .str "Comfortable shoes"])])]

/-- Python `any(term in country for term in terms)`. -/
def containsAnyTerm (country : String) (terms : List String) : Bool :=
  terms.any fun t => pyContains t country

/-- `LocationBasedFashionAssistant._get_basic_fallback_classification`.
`location_info.get('country', '')` yields the stored country value, which
is `None` when the address had no country; calling `.lower()` on it then
raises, modelled by the `.error` arm. -/
def lba_get_basic_fallback_classification (location_info : PyDict) :
    Except Unit PyDict :=
  match dgetD location_info "country" (.str "") with
  | .str c0 =>
    let country := pyLower c0
    let d := GENERIC_FALLBACK_BASE
    let d :=
      if containsAnyTerm country ["india", "pakistan", "bangladesh", "sri lanka"] then
        dset (dset d "region" (.str "south_asia")) "climate_zone" (.str "tropical")
      else if containsAnyTerm country ["united states", "usa", "canada"] then
        dset d "region" (.str "north_america")
      else if containsAnyTerm country ["united kingdom", "france", "germany", "spain", "italy"] then
        dset d "region" (.str "europe")
      else d
    .ok d
  | _ => .error ()

/-- The classification f-string prompt of
`_get_llm_location_classification` (literal braces written escaped). -/
def classification_prompt (location_info : PyDict) : String :=
  let display_name := dgetD location_info "display_name" (.str "")
  let city := dgetD location_info "city" (.str "Unknown")
  let country := dgetD location_info "country" (.str "Unknown")
  "\n        You are a global fashion market expert. Analyze this location and provide comprehensive fashion market information:\n        \n        Location: " ++ pyStr display_name ++ "\n        City: " ++ pyStr city ++ "\n        Country: " ++ pyStr country ++ "\n        \n        Provide information in this exact JSON format:\n        \x7b\n            \"region\": \"geographical region (e.g., south_asia, europe, north_america, southeast_asia, middle_east, africa, oceania)\",\n            \"climate_zone\": \"climate type (tropical, subtropical, temperate, arid, continental, oceanic, mountain)\",\n            \"fashion_market\": \"market classification (indian, american, european, british, japanese, etc.)\",\n            \"local_brands\": [\"list of 6-8 popular local fashion brands actually available in this location\"],\n            \"available_stores\": [\"list of 6-8 popular stores/retailers in this location\"],\n            \"online_platforms\": [\"list of popular online shopping platforms for this region\"],\n            \"cultural_considerations\": [\"list of 3-5 cultural factors affecting fashion choices\"],\n            \"seasonal_info\": \"brief description of seasonal fashion needs and weather patterns\",\n            \"price_range_info\": \"typical price ranges and currency information\",\n            \"popular_styles\": [\"list of 4-6 popular fashion styles in this region\"],\n            \"climate_recommendations\": \x7b\n                \"fabrics\": [\"recommended fabric types for this climate\"],\n                \"colors\": [\"suitable color palettes\"],\n                \"styles\": [\"appropriate clothing styles\"],\n                \"essentials\": [\"weather-essential items\"]\n            \x7d\n        \x7d\n        \n        Be accurate and specific. Only include brands/stores that are actually available in this location.\n        Consider the local climate, culture, economy, and fashion preferences.\n        "

/-- `LocationBasedFashionAssistant._get_llm_location_classification`: the
classification cache is consulted first (key `f"{city}-{country}"`); on a
miss the LLM is called, the parsed result cached and returned; if the LLM
call raises, the uncached rule-based fallback is returned (whose own
failure on a `None` country propagates). -/
def lba_get_llm_location_classification (llm : String → Except Unit String)
    (cc : List (String × PyDict)) (location_info : PyDict) :
    Except Unit (PyDict × List (String × PyDict)) :=
  let location_key := pyStr (dgetD location_info "city" (.str "")) ++ "-"
    ++ pyStr (dgetD location_info "country" (.str ""))
  match alookup cc location_key with
  | some cls => .ok (cls, cc)
  | Option.none =>
    match llm (classification_prompt location_info) with
    | .ok response =>
      let classification := parse_llm_classification_response response
      .ok (classification, aset cc location_key classification)
    | .error _ =>
      match lba_get_basic_fallback_classification location_info with
      | .ok d => .ok (d, cc)
      | .error e => .error e

/-- The `location_info` dict built by
`LocationBasedFashionAssistant.get_enhanced_location_info` from the
polygon record `pd` and its address details `ad` (fields in source
order; `city` is the truthiness-or of city, town and village). -/
def lba_location_info (location : String) (pd : PyDict) (ad : PyDict) : PyDict :=
  [("original", .str location),
   ("display_name", dgetD pd "display_name" (.str "")),
   ("city", pyOrV (dgetD ad "city" .none)
      (pyOrV (dgetD ad "town" .none) (dgetD ad "village" .none))),
   ("state", dgetD ad "state" .none),
   ("country", dgetD ad "country" .none),
   ("latitude", dgetD pd "latitude" (.numLit "0")),
   ("longitude", dgetD pd "longitude" (.numLit "0")),
   ("source", dgetD pd "source" (.str "nominatim"))]

/-- `LocationBasedFashionAssistant.get_enhanced_location_info`: consult
the location cache, then issue at most one lookup adapter call; a truthy
polygon record is turned into `location_info`, classified, merged and
cached; a falsy lookup result returns `None` and caches nothing.  The
third component counts the lookup adapter calls of this invocation. -/
def lba_get_enhanced_location_info (api : String → Option PyDict)
    (llm : String → Except Unit String) (st : FashionState) (location : String) :
    Except Unit (Option PyDict) × FashionState × Nat :=
  match alookup st.location_cache location with
  | some info => (.ok (some info), st, 0)
  | Option.none =>
    match api location with
    | Option.none => (.ok Option.none, st, 1)
    | some pd =>
      if pd.isEmpty then (.ok Option.none, st, 1)
      else
        match dgetD pd "address_details" (.dict []) with
        | .dict ad =>
          match lba_get_llm_location_classification llm st.classification_cache
              (lba_location_info location pd ad) with
          | .ok (cls, cc') =>
            let info := dupdate (lba_location_info location pd ad) cls
            (.ok (some info),
             { location_cache := aset st.location_cache location info,
               classification_cache := cc' }, 1)
          | .error e => (.error e, st, 1)
        | _ => (.error (), st, 1)

-- Sanity checks against Python behaviour.
example : findQuoted "[\"a\", \"b\"]" = ["a", "b"] := by decide
example : json_brace_match "x \x7b\"a\": 1\x7d y" = some "\x7b\"a\": 1\x7d".toList := by decide
example : json_brace_match "\x7d\x7b" = Option.none := by decide
example :
    dlookup (parse_llm_classification_response "\x7b\"region\": \"south_asia\"\x7d") "region"
      = some (.str "south_asia") := rfl
example :
    dmem (parse_llm_classification_response "\x7b\"region\": \"south_asia\"\x7d") "seasonal_info"
      = false := rfl
example :
    dlookup (parse_text_classification_response "totally not json") "seasonal_info"
      = some (.str "Varies by season") := rfl
example :
    dlookup (parse_text_classification_response "Region: south_asia\nLocal Brands: [\"Fabindia\", \"Myntra\"]") "local_brands"
      = some (.list [.str "Fabindia", .str "Myntra"]) := rfl

/-! ## Shared lemmas about dict and cache operations -/

theorem dlookup_dset (d : PyDict) (k : String) (v : PyVal) (k' : String) :
    dlookup (dset d k v) k' = if k = k' then some v else dlookup d k' := by
  induction d with
  | nil => simp [dset, dlookup]
  | cons kv t ih =>
    obtain ⟨k0, v0⟩ := kv
    by_cases h0 : k0 = k
    · subst h0
      by_cases h : k0 = k' <;> simp [dset, dlookup, h]
    · simp only [dset, if_neg h0]
      by_cases h1 : k0 = k'
      · have h2 : ¬k = k' := fun hh => h0 (h1.trans hh.symm)
        simp [dlookup, h1, h2]
      · simp [dlookup, h1, ih]

theorem dmem_dset_self (d : PyDict) (k : String) (v : PyVal) :
    dmem (dset d k v) k = true := by
  simp [dmem, dlookup_dset]

theorem dmem_dset_of_dmem (d : PyDict) (k : String) (v : PyVal) (k' : String)
    (h : dmem d k' = true) : dmem (dset d k v) k' = true := by
  by_cases hk : k = k'
  · simp [dmem, dlookup_dset, hk]
  · simpa [dmem, dlookup_dset, hk] using h

theorem alookup_aset_self {α : Type} (l : List (String × α)) (k : String) (v : α) :
    alookup (aset l k v) k = some v := by
  induction l with
  | nil => simp [aset, alookup]
  | cons kv t ih =>
    obtain ⟨k0, v0⟩ := kv
    by_cases h0 : k0 = k <;> simp [aset, alookup, h0, ih]

/-! ## Claims C5 and C9: `_llm_chat` fallback behaviour -/

/-- C5: for every prompt, selection mode and model oracle, if the first
completion attempt (on the selected model) raises and the fallback
attempt also raises, `_llm_chat` returns the fixed degraded apology
string.  The embedding is a total function, so no exception propagates
once a model has been selected. -/
theorem c5_llm_chat_double_failure_returns_apology
    (attempt : String → String → Except Unit String) (r : Nat)
    (prompt task_complexity : String) (use_random_model : Bool)
    (h1 : attempt (select_model r task_complexity use_random_model) prompt = .error ())
    (h2 : attempt (fallback_model_for (select_model r task_complexity use_random_model))
            prompt = .error ()) :
    (llm_chat attempt r prompt task_complexity use_random_model).result = LLM_APOLOGY := by
  simp only [llm_chat, h1, h2]

/-- Witness for C5: a model oracle that always raises makes `_llm_chat`
return the apology string. -/
theorem c5_witness :
    (llm_chat (fun _ _ => .error ()) 0 "prompt" "medium" true).result = LLM_APOLOGY :=
  c5_llm_chat_double_failure_returns_apology (fun _ _ => .error ()) 0 "prompt" "medium" true
    rfl rfl

/-- The fallback model is never the model it replaces. -/
theorem fallback_model_for_ne (m : String) : fallback_model_for m ≠ m := by
  unfold fallback_model_for
  by_cases h : m = "models/gemini-1.5-flash"
  · subst h; decide
  · simp only [if_neg h]
    exact fun hh => h hh.symm

/-- C9: when the first completion attempt fails after a model was
selected, the retry uses exactly the fallback model — `gemini-1.5-flash`
unless the failed model was that one, in which case `gemini-2.0-flash` —
and that model is never equal to the one that just failed. -/
theorem c9_fallback_model_never_repeats_failed_model
    (attempt : String → String → Except Unit String) (r : Nat)
    (prompt task_complexity : String) (use_random_model : Bool)
    (h1 : attempt (select_model r task_complexity use_random_model) prompt = .error ()) :
    (llm_chat attempt r prompt task_complexity use_random_model).attempts
        = [select_model r task_complexity use_random_model,
           fallback_model_for (select_model r task_complexity use_random_model)]
      ∧ fallback_model_for (select_model r task_complexity use_random_model)
          ≠ select_model r task_complexity use_random_model
      ∧ fallback_model_for (select_model r task_complexity use_random_model)
          = if select_model r task_complexity use_random_model = "models/gemini-1.5-flash"
            then "models/gemini-2.0-flash" else "models/gemini-1.5-flash" := by
  refine ⟨?_, fallback_model_for_ne _, rfl⟩
  cases h2 : attempt (fallback_model_for (select_model r task_complexity use_random_model)) prompt <;>
    simp only [llm_chat, h1, h2]

/-- Witness for C9: with random pick 0 the selected model is
`gemini-1.5-flash`, and after its failure the attempted models are
exactly `[gemini-1.5-flash, gemini-2.0-flash]`. -/
theorem c9_witness :
    (llm_chat (fun _ _ => .error ()) 0 "prompt" "medium" true).attempts
      = ["models/gemini-1.5-flash", "models/gemini-2.0-flash"] := by
  have h := (c9_fallback_model_never_repeats_failed_model
    (fun _ _ => .error ()) 0 "prompt" "medium" true rfl).1
  rw [h]; rfl

/-! ## Claims C1 and C2: the orchestrator's shortcut checks

`process_user_message` runs `extract_user_info` — which unconditionally
issues one `_llm_chat` call — before the greeting and single-token
shortcut checks, so the Completion Service *is* invoked once on those
paths; it is only the intent-classification and response-generation calls
that are skipped. -/

/-- Oracles used by concrete counterexample runs: the Gemini call always
raises (so `_llm_chat` degrades to the apology string), the random stream
is constantly 0, the location lookup finds nothing. -/
def cexOracles : Oracles :=
  ⟨fun _ _ => .error (), fun _ => 0, fun _ => Option.none⟩

/-- The empty preference store. -/
def emptyStore : Store := fun _ => Option.none

/-- C1 counterexample: on the greeting "hello" the orchestrator does
return the fixed greeting reply, but the `_llm_chat` trace is non-empty —
the fact-extraction call happened before the shortcut check — refuting
"the Completion Service is never invoked during that call". -/
theorem c1_counterexample :
    (process_user_message cexOracles "hello" "u" emptyStore).1 = GREETING_REPLY
      ∧ (process_user_message cexOracles "hello" "u" emptyStore).2.2 ≠ [] := by
  exact ⟨rfl, by decide⟩

/-- C1 as amended: for every message whose trimmed lower-cased form is a
greeting token, `process_user_message` returns the fixed greeting reply
and the `_llm_chat` trace is exactly the one fact-extraction prompt — no
intent-classification or response-generation call is made. -/
theorem c1_greeting_reply_single_extraction_call (o : Oracles)
    (message user_id : String) (store : Store)
    (h : pyLower (pyStrip message) ∈ GREETINGS) :
    (process_user_message o message user_id store).1 = GREETING_REPLY
      ∧ (process_user_message o message user_id store).2.2 = [extract_prompt message] := by
  constructor <;> simp only [process_user_message, if_pos h]

/-- Witness for amended C1 at the end-to-end scenario input "hello". -/
theorem c1_witness :
    (process_user_message cexOracles "hello" "u" emptyStore).1 = GREETING_REPLY
      ∧ (process_user_message cexOracles "hello" "u" emptyStore).2.2
          = [extract_prompt "hello"] :=
  c1_greeting_reply_single_extraction_call cexOracles "hello" "u" emptyStore (by decide)

/-- C2 counterexample: on the single alphanumeric token "asdf123" (empty
store, so no prior context) the orchestrator does return the fixed
"didn't understand" reply, but the `_llm_chat` trace is non-empty — the
fact-extraction call happened before the shortcut check — refuting "the
Completion Service is never invoked during that call". -/
theorem c2_counterexample :
    (process_user_message cexOracles "asdf123" "u" emptyStore).1 = DONT_UNDERSTAND_REPLY
      ∧ (process_user_message cexOracles "asdf123" "u" emptyStore).2.2 ≠ [] := by
  exact ⟨rfl, by decide⟩

/-- C2 as amended: for every message that trims to a single alphanumeric
whitespace-token not in the greeting set, `process_user_message` returns
the fixed "didn't understand" reply and the `_llm_chat` trace is exactly
the one fact-extraction prompt — no intent-classification or
response-generation call is made. -/
theorem c2_unintelligible_reply_single_extraction_call (o : Oracles)
    (message user_id : String) (store : Store)
    (h1 : pyLower (pyStrip message) ∉ GREETINGS)
    (h2 : (pySplitWs (pyStrip message)).length = 1)
    (h3 : isAlnumToken (pyStrip message) = true) :
    (process_user_message o message user_id store).1 = DONT_UNDERSTAND_REPLY
      ∧ (process_user_message o message user_id store).2.2 = [extract_prompt message] := by
  constructor <;>
    simp only [process_user_message, if_neg h1, if_pos (And.intro h2 (And.intro h1 h3))]

/-- Witness for amended C2 at the end-to-end scenario input "asdf123"
with no prior context. -/
theorem c2_witness :
    (process_user_message cexOracles "asdf123" "u" emptyStore).1 = DONT_UNDERSTAND_REPLY
      ∧ (process_user_message cexOracles "asdf123" "u" emptyStore).2.2
          = [extract_prompt "asdf123"] :=
  c2_unintelligible_reply_single_extraction_call cexOracles "asdf123" "u" emptyStore
    (by decide) (by decide) (by decide)

/-! ## Claims C6, C7, C10: the fact-merge loop of `extract_user_info` -/

/-- A response line supplies no non-budget fact: its first matching label
(if any) is `Budget:`, or its extracted value is the literal "unknown". -/
def nonBudgetUnknown (line : String) : Bool :=
  match lineField line with
  | some (.location, v) => v == "unknown"
  | some (.body_type, v) => v == "unknown"
  | some (.style_preferences, v) => v == "unknown"
  | _ => true

/-- The budget-only view of one loop iteration: the new budget value when
the line's first matching label is `Budget:` with a non-"unknown" value,
else the old one. -/
def budget_step (b : Option String) (line : String) : Option String :=
  match lineField line with
  | some (.budget, v) => if v ≠ "unknown" then some v else b
  | _ => b

/-- A line whose first matching label carries no value other than
"unknown" leaves the record untouched. -/
theorem process_extract_line_unknown (api : String → Option PyDict)
    (r : UserRecord) (line : String)
    (h : (lineField line).all (fun p => p.2 == "unknown") = true) :
    process_extract_line api r line = r := by
  cases hl : lineField line with
  | none => simp [process_extract_line, hl]
  | some p =>
    obtain ⟨tag, v⟩ := p
    rw [hl] at h
    simp only [Option.all_some, beq_iff_eq] at h
    subst h
    cases tag <;> simp [process_extract_line, hl]

/-- Folding the extraction loop over lines that all satisfy
`process_extract_line_unknown`'s hypothesis is the identity. -/
theorem foldl_extract_unknown (api : String → Option PyDict)
    (lines : List String) (r : UserRecord)
    (h : ∀ line ∈ lines, (lineField line).all (fun p => p.2 == "unknown") = true) :
    lines.foldl (process_extract_line api) r = r := by
  induction lines generalizing r with
  | nil => rfl
  | cons line rest ih =>
    rw [List.foldl_cons,
      process_extract_line_unknown api r line (h line (List.mem_cons_self line rest))]
    exact ih r fun l hl => h l (List.mem_cons_of_mem line hl)

/-- C6: for a user whose record already exists, running fact extraction on
a model response whose every line carries (for its first matching label)
only the literal "unknown" returns the existing record and leaves the
whole `user_preferences` store unchanged. -/
theorem c6_all_unknown_extraction_is_noop (o : Oracles)
    (message user_id : String) (store : Store) (r : UserRecord)
    (hr : store user_id = some r)
    (hu : ∀ line ∈ pySplit "\n" (pyStrip (llm_chat o.attempt (o.rand 0)
            (extract_prompt message) "medium" true).result),
          (lineField line).all (fun p => p.2 == "unknown") = true) :
    (extract_user_info o message user_id store).1 = r
      ∧ (extract_user_info o message user_id store).2 = store := by
  have hfold := foldl_extract_unknown o.api
    (pySplit "\n" (pyStrip (llm_chat o.attempt (o.rand 0)
      (extract_prompt message) "medium" true).result)) r hu
  constructor
  · simp only [extract_user_info, hr, Option.getD_some, hfold]
  · funext u
    simp only [extract_user_info, hr, Option.getD_some, hfold]
    by_cases hu' : u = user_id
    · subst hu'; simp [hr]
    · simp [hu']

/-- Witness for C6: a response with all four labels valued "unknown"
leaves a fully populated record and the store unchanged. -/
theorem c6_witness :
    (extract_user_info
        ⟨fun _ _ => .ok "Location: unknown\nBody Type: unknown\nStyle Preferences: unknown\nBudget: unknown",
         fun _ => 0, fun _ => Option.none⟩
        "my message" "u1"
        (fun _ => some ⟨some "Paris", Option.none, some "curvy", some "minimal", some "$200"⟩)).1
      = ⟨some "Paris", Option.none, some "curvy", some "minimal", some "$200"⟩
      ∧ (extract_user_info
        ⟨fun _ _ => .ok "Location: unknown\nBody Type: unknown\nStyle Preferences: unknown\nBudget: unknown",
         fun _ => 0, fun _ => Option.none⟩
        "my message" "u1"
        (fun _ => some ⟨some "Paris", Option.none, some "curvy", some "minimal", some "$200"⟩)).2
      = (fun _ => some ⟨some "Paris", Option.none, some "curvy", some "minimal", some "$200"⟩) :=
  c6_all_unknown_extraction_is_noop _ "my message" "u1" _
    ⟨some "Paris", Option.none, some "curvy", some "minimal", some "$200"⟩
    rfl (by decide)

/-- A fold of the extraction loop over lines that supply no non-budget
fact changes only the budget field, exactly as the budget-only fold
prescribes. -/
theorem foldl_extract_budget_only (api : String → Option PyDict)
    (lines : List String) (r : UserRecord)
    (h : ∀ line ∈ lines, nonBudgetUnknown line = true) :
    lines.foldl (process_extract_line api) r
      = { r with budget := lines.foldl budget_step r.budget } := by
  induction lines generalizing r with
  | nil => rfl
  | cons line rest ih =>
    have hline := h line (List.mem_cons_self line rest)
    have hrest : ∀ l ∈ rest, nonBudgetUnknown l = true :=
      fun l hl => h l (List.mem_cons_of_mem line hl)
    rw [List.foldl_cons, List.foldl_cons]
    cases hl : lineField line with
    | none =>
      have : process_extract_line api r line = r := by
        simp [process_extract_line, hl]
      rw [this]
      have : budget_step r.budget line = r.budget := by
        simp [budget_step, hl]
      rw [this]
      exact ih r hrest
    | some p =>
      obtain ⟨tag, v⟩ := p
      cases tag with
      | budget =>
        by_cases hv : v = "unknown"
        · subst hv
          have h1 : process_extract_line api r line = r := by
            simp [process_extract_line, hl]
          have h2 : budget_step r.budget line = r.budget := by
            simp [budget_step, hl]
          rw [h1, h2]
          exact ih r hrest
        · have h1 : process_extract_line api r line = { r with budget := some v } := by
            simp [process_extract_line, hl, hv]
          have h2 : budget_step r.budget line = some v := by
            simp [budget_step, hl, hv]
          rw [h1, h2]
          exact ih { r with budget := some v } hrest
      | location =>
        have hv : v = "unknown" := by
          unfold nonBudgetUnknown at hline
          rw [hl] at hline
          simpa using hline
        subst hv
        have h1 : process_extract_line api r line = r := by
          simp [process_extract_line, hl]
        have h2 : budget_step r.budget line = r.budget := by
          simp [budget_step, hl]
        rw [h1, h2]
        exact ih r hrest
      | body_type =>
        have hv : v = "unknown" := by
          unfold nonBudgetUnknown at hline
          rw [hl] at hline
          simpa using hline
        subst hv
        have h1 : process_extract_line api r line = r := by
          simp [process_extract_line, hl]
        have h2 : budget_step r.budget line = r.budget := by
          simp [budget_step, hl]
        rw [h1, h2]
        exact ih r hrest
      | style_preferences =>
        have hv : v = "unknown" := by
          unfold nonBudgetUnknown at hline
          rw [hl] at hline
          simpa using hline
        subst hv
        have h1 : process_extract_line api r line = r := by
          simp [process_extract_line, hl]
        have h2 : budget_step r.budget line = r.budget := by
          simp [budget_step, hl]
        rw [h1, h2]
        exact ih r hrest

/-- The old record with only the budget field rewritten by the budget
lines of a response. -/
def budget_only_update (r : UserRecord) (lines : List String) : UserRecord :=
  { r with budget := lines.foldl budget_step r.budget }

/-- C7: for a user with an existing record, extracting a response whose
lines supply only budget information (every non-budget labeled value is
"unknown" or absent) yields exactly the old record with only the budget
field rewritten by the budget lines; location, enhanced location, body
type and style preferences are untouched. -/
theorem c7_budget_update_preserves_other_fields (o : Oracles)
    (message user_id : String) (store : Store) (r : UserRecord)
    (hr : store user_id = some r)
    (hp : ∀ line ∈ pySplit "\n" (pyStrip (llm_chat o.attempt (o.rand 0)
            (extract_prompt message) "medium" true).result),
          nonBudgetUnknown line = true) :
    (extract_user_info o message user_id store).1
      = budget_only_update r (pySplit "\n" (pyStrip (llm_chat o.attempt (o.rand 0)
          (extract_prompt message) "medium" true).result)) := by
  unfold budget_only_update
  have hfold := foldl_extract_budget_only o.api
    (pySplit "\n" (pyStrip (llm_chat o.attempt (o.rand 0)
      (extract_prompt message) "medium" true).result)) r hp
  simp only [extract_user_info, hr, Option.getD_some, hfold]

/-- Witness for C7, the spec's own scenario: after a prior budget of
`$200`, a response supplying only `Budget: $50-100` updates the budget to
`$50-100` and leaves the location, enhanced location, body type and style
preference facts exactly as they were. -/
theorem c7_witness :
    (extract_user_info
        ⟨fun _ _ => .ok "Location: unknown\nBody Type: unknown\nStyle Preferences: unknown\nBudget: $50-100",
         fun _ => 0, fun _ => Option.none⟩
        "my message" "u1"
        (fun _ => some ⟨some "Paris", Option.none, some "curvy", some "minimal", some "$200"⟩)).1
      = ⟨some "Paris", Option.none, some "curvy", some "minimal", some "$50-100"⟩ :=
  c7_budget_update_preserves_other_fields _ "my message" "u1" _
    ⟨some "Paris", Option.none, some "curvy", some "minimal", some "$200"⟩
    rfl (by decide)

/-- C10 counterexample: label matching is case-sensitive substring
containment, so the claim's example line `Relocation: Paris` (lower-case
`l`) matches no label and changes nothing — while `ReLocation: Paris`
would match `Location:`.  This refutes the claim's assertion that
`Relocation: Paris` is treated as a Location line. -/
theorem c10_counterexample :
    lineField "Relocation: Paris" = Option.none
      ∧ process_extract_line (fun _ => Option.none) {} "Relocation: Paris"
          = ({} : UserRecord)
      ∧ lineField "ReLocation: Paris" = some (.location, "Paris") :=
  ⟨rfl, rfl, rfl⟩

/-- C10 as amended: per response line at most one labeled fact is
updated, chosen as the first matching label in the fixed order
`Location:`, `Body Type:`, `Style Preferences:`, `Budget:` (a line
containing several label tokens updates only the highest-priority one);
matching is by case-sensitive substring containment (so
`ReLocation: Paris` is a Location line while `Relocation: Paris` is
not).  The location label owns both `location` and `enhanced_location`;
every field outside the matched label's own is left unchanged. -/
theorem c10_line_updates_at_most_one_labeled_field
    (api : String → Option PyDict) (r : UserRecord) (line : String) :
    (lineField line = Option.none → process_extract_line api r line = r)
      ∧ (∀ v, lineField line = some (.location, v) →
          (process_extract_line api r line).body_type = r.body_type
            ∧ (process_extract_line api r line).style_preferences = r.style_preferences
            ∧ (process_extract_line api r line).budget = r.budget)
      ∧ (∀ v, lineField line = some (.body_type, v) →
          (process_extract_line api r line).location = r.location
            ∧ (process_extract_line api r line).enhanced_location = r.enhanced_location
            ∧ (process_extract_line api r line).style_preferences = r.style_preferences
            ∧ (process_extract_line api r line).budget = r.budget)
      ∧ (∀ v, lineField line = some (.style_preferences, v) →
          (process_extract_line api r line).location = r.location
            ∧ (process_extract_line api r line).enhanced_location = r.enhanced_location
            ∧ (process_extract_line api r line).body_type = r.body_type
            ∧ (process_extract_line api r line).budget = r.budget)
      ∧ (∀ v, lineField line = some (.budget, v) →
          (process_extract_line api r line).location = r.location
            ∧ (process_extract_line api r line).enhanced_location = r.enhanced_location
            ∧ (process_extract_line api r line).body_type = r.body_type
            ∧ (process_extract_line api r line).style_preferences = r.style_preferences) := by
  refine ⟨fun h => by simp [process_extract_line, h], ?_, ?_, ?_, ?_⟩
  · intro v h
    by_cases hv : v = "unknown" <;>
      cases hel : gu_get_enhanced_location_info api v <;>
        simp [process_extract_line, h, hv, hel]
  · intro v h
    by_cases hv : v = "unknown" <;> simp [process_extract_line, h, hv]
  · intro v h
    by_cases hv : v = "unknown" <;> simp [process_extract_line, h, hv]
  · intro v h
    by_cases hv : v = "unknown" <;> simp [process_extract_line, h, hv]

/-- Witness for amended C10: a line containing both `Style Preferences:`
and `Budget:` updates at most the style-preference field — its budget,
location and body-type facts survive unchanged. -/
theorem c10_witness :
    (process_extract_line (fun _ => Option.none)
        ⟨Option.none, Option.none, Option.none, Option.none, some "$200"⟩
        "Style Preferences: classy Budget: $5").budget = some "$200" :=
  ((c10_line_updates_at_most_one_labeled_field (fun _ => Option.none)
      ⟨Option.none, Option.none, Option.none, Option.none, some "$200"⟩
      "Style Preferences: classy Budget: $5").2.2.2.1
    "classy Budget: $5" rfl).2.2.2

/-! ## Claim C3: totality of the classification parse -/

/-- Whether a value is a Python list. -/
def PyVal.isList : PyVal → Bool
  | .list _ => true
  | _ => false

/-- The key is present with a list value. -/
def isListAt (d : PyDict) (k : String) : Bool :=
  match dlookup d k with
  | some (.list _) => true
  | _ => false

/-- The guaranteed shape of a parsed classification record: the three
`required_fields` present, the five list fields present with list values,
and a `climate_recommendations` key present. -/
def profile_keys_ok (d : PyDict) : Bool :=
  dmem d "region" && dmem d "climate_zone" && dmem d "fashion_market"
    && CLS_LIST_KEYS.all (isListAt d) && dmem d "climate_recommendations"

theorem dmem_dset_eq (d : PyDict) (k : String) (v : PyVal) (j : String) :
    dmem (dset d k v) j = (k = j || dmem d j) := by
  by_cases h : k = j <;> simp [dmem, dlookup_dset, h]

theorem isListAt_dset_eq (d : PyDict) (k : String) (v : PyVal) (j : String) :
    isListAt (dset d k v) j = if k = j then v.isList else isListAt d j := by
  by_cases h : k = j
  · cases v <;> simp [isListAt, dlookup_dset, h, PyVal.isList]
  · simp [isListAt, dlookup_dset, h]

theorem dmem_ensure_scalar (d : PyDict) (f j : String) :
    dmem (ensure_scalar d f) j = (f = j || dmem d j) := by
  unfold ensure_scalar
  by_cases hm : dmem d f
  · by_cases h : f = j
    · subst h; simp [hm]
    · simp [hm, h]
  · simp [hm, dmem_dset_eq]

theorem isListAt_ensure_scalar (d : PyDict) (f j : String) :
    isListAt (ensure_scalar d f) j = isListAt d j := by
  unfold ensure_scalar
  by_cases hm : dmem d f
  · simp [hm]
  · rw [if_neg hm, isListAt_dset_eq]
    by_cases h : f = j
    · subst h
      have hl : dlookup d f = Option.none := by
        cases hd : dlookup d f with
        | none => rfl
        | some v => rw [dmem, hd] at hm; simp at hm
      simp [PyVal.isList, isListAt, hl]
    · simp [h]

theorem dmem_ensure_list (d : PyDict) (f j : String) :
    dmem (ensure_list d f) j = (f = j || dmem d j) := by
  unfold ensure_list
  by_cases h : f = j
  · subst h
    cases hd : dlookup d f with
    | some v => cases v <;> simp [dmem, dlookup_dset, hd]
    | none => simp [dmem, dlookup_dset]
  · cases hd : dlookup d f with
    | some v => cases v <;> simp [dmem, dlookup_dset, h]
    | none => simp [dmem, dlookup_dset, h]

theorem isListAt_ensure_list (d : PyDict) (f j : String) :
    isListAt (ensure_list d f) j = if f = j then true else isListAt d j := by
  unfold ensure_list
  by_cases h : f = j
  · subst h
    cases hd : dlookup d f with
    | some v => cases v <;> simp [isListAt, dlookup_dset, hd]
    | none => simp [isListAt, dlookup_dset]
  · cases hd : dlookup d f with
    | some v => cases v <;> simp [isListAt, dlookup_dset, h, hd]
    | none => simp [isListAt, dlookup_dset, h, hd]

/-- The validation stage always yields a record of the guaranteed shape,
whatever dict the JSON decode produced. -/
theorem profile_keys_ok_validate (d : PyDict) :
    profile_keys_ok (validate_classification d) = true := by
  simp only [validate_classification, REQUIRED_FIELDS, CLS_LIST_KEYS, List.foldl]
  split
  · simp_all +decide [profile_keys_ok, CLS_LIST_KEYS, dmem_ensure_list,
      dmem_ensure_scalar, isListAt_ensure_list, isListAt_ensure_scalar]
  · simp_all +decide [profile_keys_ok, CLS_LIST_KEYS, dmem_dset_eq, isListAt_dset_eq,
      dmem_ensure_list, dmem_ensure_scalar, isListAt_ensure_list, isListAt_ensure_scalar]

/-- Setting a scalar key of the text parser preserves the guaranteed
shape (scalar and list key sets are disjoint). -/
theorem profile_keys_ok_dset_scalar (d : PyDict) (k s : String)
    (hk : k ∈ CLS_SCALAR_KEYS) (hd : profile_keys_ok d = true) :
    profile_keys_ok (dset d k (.str s)) = true := by
  simp only [CLS_SCALAR_KEYS, List.mem_cons, List.mem_singleton] at hk
  rcases hk with rfl | rfl | rfl | rfl | rfl | h <;>
    simp_all +decide [profile_keys_ok, CLS_LIST_KEYS, dmem_dset_eq, isListAt_dset_eq]

/-- Setting a list key of the text parser with a list value preserves the
guaranteed shape. -/
theorem profile_keys_ok_dset_list (d : PyDict) (k : String) (xs : List PyVal)
    (hk : k ∈ CLS_LIST_KEYS) (hd : profile_keys_ok d = true) :
    profile_keys_ok (dset d k (.list xs)) = true := by
  simp only [CLS_LIST_KEYS, List.mem_cons, List.mem_singleton] at hk
  rcases hk with rfl | rfl | rfl | rfl | rfl | h <;>
    simp_all +decide [profile_keys_ok, CLS_LIST_KEYS, dmem_dset_eq,
      isListAt_dset_eq, PyVal.isList]

/-- One line of the text fallback preserves the guaranteed shape. -/
theorem profile_keys_ok_parse_text_line (d : PyDict) (rawLine : String)
    (hd : profile_keys_ok d = true) :
    profile_keys_ok (parse_text_line d rawLine) = true := by
  simp only [parse_text_line]
  split_ifs with h0 h1 h2 h3 h4
  · exact profile_keys_ok_dset_scalar _ _ _ h1 hd
  · exact profile_keys_ok_dset_list _ _ _ h2 hd
  · exact profile_keys_ok_dset_list _ _ _ h2 hd
  · exact hd
  · exact hd
  · exact hd

/-- The text fallback always yields a record of the guaranteed shape. -/
theorem profile_keys_ok_text (response : String) :
    profile_keys_ok (parse_text_classification_response response) = true := by
  unfold parse_text_classification_response
  have base : profile_keys_ok TEXT_DEFAULT_CLASSIFICATION = true := by decide
  generalize TEXT_DEFAULT_CLASSIFICATION = d0 at base
  induction pySplit "\n" response generalizing d0 with
  | nil => exact base
  | cons line rest ih =>
    exact ih (parse_text_line d0 line) (profile_keys_ok_parse_text_line d0 line base)

/-- C3 as amended: for every classification input — well-formed JSON,
malformed JSON, or plain text — the parsed record always contains the
keys `region`, `climate_zone` and `fashion_market`, all five list-valued
keys with list values, and a `climate_recommendations` key.  (The keys
`seasonal_info` and `price_range_info` are guaranteed only by the
text-fallback path: the JSON path's `required_fields` backfill does not
include them, as the counterexample shows.) -/
theorem c3_parsed_classification_has_guaranteed_keys (response : String) :
    profile_keys_ok (parse_llm_classification_response response) = true := by
  unfold parse_llm_classification_response
  cases hb : json_brace_match response with
  | none => exact profile_keys_ok_text response
  | some jcs =>
    dsimp only
    cases hl : json_loads jcs with
    | none => exact profile_keys_ok_text response
    | some v =>
      cases v with
      | dict d => exact profile_keys_ok_validate d
      | none => exact profile_keys_ok_text response
      | bool b => exact profile_keys_ok_text response
      | numLit s => exact profile_keys_ok_text response
      | str s => exact profile_keys_ok_text response
      | list xs => exact profile_keys_ok_text response

/-- C3 counterexample: the spec's own scenario-4 JSON input (all three
required scalars present, list fields missing) parses to a record with no
`seasonal_info` and no `price_range_info` key at all — refuting "the
returned record contains every required scalar key (…, seasonal_info,
price_range_info …); no key is ever absent". -/
theorem c3_counterexample :
    dmem (parse_llm_classification_response
        "\x7b\"region\":\"south_asia\",\"climate_zone\":\"tropical\",\"fashion_market\":\"indian\"\x7d")
      "seasonal_info" = false
    ∧ dmem (parse_llm_classification_response
        "\x7b\"region\":\"south_asia\",\"climate_zone\":\"tropical\",\"fashion_market\":\"indian\"\x7d")
      "price_range_info" = false :=
  ⟨rfl, rfl⟩

/-! ## Claim C4: the enrichment caches -/

/-- C4 counterexample: with a lookup adapter that finds nothing, enriching
the same raw string twice issues the adapter call twice — an unsuccessful
first lookup is not cached, refuting "at most once in total … for both
successful and unsuccessful first lookups". -/
theorem c4_counterexample :
    (lba_get_enhanced_location_info (fun _ => Option.none) (fun _ => .ok "") ⟨[], []⟩ "Paris").2.2
      + (lba_get_enhanced_location_info (fun _ => Option.none) (fun _ => .ok "")
          (lba_get_enhanced_location_info (fun _ => Option.none) (fun _ => .ok "")
            ⟨[], []⟩ "Paris").2.1 "Paris").2.2 = 2 := rfl

/-- C4 as amended: the location cache is consulted before any adapter
call (a cached raw string issues none), and when the first enrichment
succeeds its result is cached, so two successive enrichments of the same
raw string issue at most one adapter call in total.  (After a failed
first lookup nothing is cached and the second call repeats the lookup,
as the counterexample shows.) -/
theorem c4_cache_limits_lookup_calls (api : String → Option PyDict)
    (llm : String → Except Unit String) (st : FashionState) (loc : String) :
    ((alookup st.location_cache loc).isSome →
        (lba_get_enhanced_location_info api llm st loc).2.2 = 0)
      ∧ (∀ info, (lba_get_enhanced_location_info api llm st loc).1 = .ok (some info) →
          (lba_get_enhanced_location_info api llm st loc).2.2
            + (lba_get_enhanced_location_info api llm
                (lba_get_enhanced_location_info api llm st loc).2.1 loc).2.2 ≤ 1) := by
  cases hc : alookup st.location_cache loc with
  | some info0 =>
    constructor
    · intro _
      simp [lba_get_enhanced_location_info, hc]
    · intro info _
      simp [lba_get_enhanced_location_info, hc]
  | none =>
    constructor
    · intro hs
      simp at hs
    · intro info h
      cases ha : api loc with
      | none =>
        simp [lba_get_enhanced_location_info, hc, ha] at h
      | some pd =>
        by_cases hpd : pd.isEmpty
        · simp [lba_get_enhanced_location_info, hc, ha, hpd] at h
        · cases had : dgetD pd "address_details" (.dict []) with
          | dict ad =>
            cases hcl : lba_get_llm_location_classification llm st.classification_cache
                (lba_location_info loc pd ad) with
            | error e =>
              simp [lba_get_enhanced_location_info, hc, ha, hpd, had, hcl] at h
            | ok pr =>
              obtain ⟨cls, cc'⟩ := pr
              simp [lba_get_enhanced_location_info, hc, ha, hpd, had, hcl,
                alookup_aset_self]
          | none => simp [lba_get_enhanced_location_info, hc, ha, hpd, had] at h
          | bool b => simp [lba_get_enhanced_location_info, hc, ha, hpd, had] at h
          | numLit s => simp [lba_get_enhanced_location_info, hc, ha, hpd, had] at h
          | str s => simp [lba_get_enhanced_location_info, hc, ha, hpd, had] at h
          | list xs => simp [lba_get_enhanced_location_info, hc, ha, hpd, had] at h

/-- Lookup adapter of the C4 witness run: a fixed polygon record. -/
def c4_witness_api : String → Option PyDict :=
  fun _ => some [("display_name", .str "Mumbai, Maharashtra, India")]

/-- Classification model of the C4 witness run: a non-JSON reply, parsed
by the text fallback. -/
def c4_witness_llm : String → Except Unit String := fun _ => .ok "no json here"

/-- The enriched record produced by the C4 witness run. -/
def c4_witness_info : PyDict :=
  match (lba_get_enhanced_location_info c4_witness_api c4_witness_llm ⟨[], []⟩ "Mumbai").1 with
  | .ok (some i) => i
  | _ => []

/-- Witness for amended C4: a successful first enrichment caches its
result, and the two successive calls issue one adapter call in total. -/
theorem c4_witness :
    (lba_get_enhanced_location_info c4_witness_api c4_witness_llm ⟨[], []⟩ "Mumbai").2.2
      + (lba_get_enhanced_location_info c4_witness_api c4_witness_llm
          (lba_get_enhanced_location_info c4_witness_api c4_witness_llm
            ⟨[], []⟩ "Mumbai").2.1 "Mumbai").2.2 ≤ 1 :=
  (c4_cache_limits_lookup_calls c4_witness_api c4_witness_llm ⟨[], []⟩ "Mumbai").2
    c4_witness_info rfl

/-! ## Claim C8: the rule-based fallback classification -/

/-- The deterministic region/climate table claim C8 describes, applied to
the lower-cased country string (entries tried in the given order). -/
def fallback_region_table (country : String) : String × String :=
  if containsAnyTerm country ["india", "pakistan", "bangladesh", "sri lanka"] then
    ("south_asia", "tropical")
  else if containsAnyTerm country ["united states", "usa", "canada"] then
    ("north_america", "temperate")
  else if containsAnyTerm country ["united kingdom", "france", "germany", "spain", "italy"] then
    ("europe", "temperate")
  else ("unknown", "temperate")

/-- C8: on a classification-cache miss, when the LLM classification call
raises, the returned profile is the deterministic rule-based fallback: its
region and climate zone follow the fixed substring table on the
lower-cased country (given that the record's country is a string — a
`None` country would instead raise in `.lower()`), its brand, store and
style lists are the fixed generic set, and nothing is cached. -/
theorem c8_llm_failure_uses_fixed_fallback_table
    (llm : String → Except Unit String) (cc : List (String × PyDict))
    (location_info : PyDict) (c : String)
    (hcc : alookup cc (pyStr (dgetD location_info "city" (.str "")) ++ "-"
            ++ pyStr (dgetD location_info "country" (.str ""))) = Option.none)
    (hllm : llm (classification_prompt location_info) = .error ())
    (hc : dgetD location_info "country" (.str "") = .str c) :
    ∃ d, lba_get_llm_location_classification llm cc location_info = .ok (d, cc)
      ∧ dlookup d "region" = some (.str (fallback_region_table (pyLower c)).1)
      ∧ dlookup d "climate_zone" = some (.str (fallback_region_table (pyLower c)).2)
      ∧ dlookup d "local_brands" = some (.list [.str "Zara", .str "H&M", .str "Uniqlo"])
      ∧ dlookup d "available_stores"
          = some (.list [.str "Local malls", .str "Online retailers"])
      ∧ dlookup d "popular_styles"
          = some (.list [.str "Casual", .str "Smart casual", .str "Formal"]) := by
  simp only [lba_get_llm_location_classification]
  rw [hcc]
  dsimp only
  rw [hllm]
  dsimp only
  simp only [lba_get_basic_fallback_classification]
  rw [hc]
  dsimp only
  unfold fallback_region_table
  split_ifs with h1 h2 h3 <;> exact ⟨_, rfl, rfl, rfl, rfl, rfl, rfl⟩

/-- Witness for C8 at a concrete record whose country is the string
"India": the fallback classifies it as tropical south Asia. -/
theorem c8_witness :
    ∃ d, lba_get_llm_location_classification (fun _ => .error ()) []
          [("country", .str "India")] = .ok (d, [])
      ∧ dlookup d "region" = some (.str (fallback_region_table (pyLower "India")).1)
      ∧ dlookup d "climate_zone" = some (.str (fallback_region_table (pyLower "India")).2)
      ∧ dlookup d "local_brands" = some (.list [.str "Zara", .str "H&M", .str "Uniqlo"])
      ∧ dlookup d "available_stores"
          = some (.list [.str "Local malls", .str "Online retailers"])
      ∧ dlookup d "popular_styles"
          = some (.list [.str "Casual", .str "Smart casual", .str "Formal"]) :=
  c8_llm_failure_uses_fixed_fallback_table (fun _ => .error ()) []
    [("country", .str "India")] "India" rfl rfl rfl

end Cultura
